import Mathlib

/-!
Verification of the ToAMAO astrology API core: the aspect detector
(`transit_router.get_transits_to_natal`, `svg_combined_chart.create_combined_chart_svg`),
the combined-chart SVG renderer, the house-system mapping (`models.HOUSE_SYSTEM_MAP`,
`astro_helpers.create_subject`), the routers' error classification, and the renderer's
temporary-file path computation.

Longitudes and orbs are modelled over `ℚ` (the Python code uses floats for exact
decimal literals and simple arithmetic; all claim-relevant comparisons are exact).
The SVG renderer's trigonometric placement is modelled over `ℝ`.
-/

namespace ToAMAO

/-! ### Aspect detector (transit_router.py lines 88-125, svg_combined_chart.py lines 245-290) -/

/-- Names of the eleven entries of the fixed aspect table.  `transit_router.py`
keys the table with the English names, `svg_combined_chart.py` with the
Portuguese ones; both tables carry the same angles and orbs. -/
inductive AspectName where
  | conjunction
  | opposition
  | trine
  | square
  | sextile
  | quincunx
  | semiSextile
  | semiSquare
  | sesquiSquare
  | quintile
  | biQuintile
deriving DecidableEq

/-- The fixed aspect table `aspect_types`: (name, exact angle, max orb),
in source order. -/
def aspect_types : List (AspectName × ℚ × ℚ) :=
  [(.conjunction, 0, 8),
   (.opposition, 180, 8),
   (.trine, 120, 8),
   (.square, 90, 7),
   (.sextile, 60, 6),
   (.quincunx, 150, 5),
   (.semiSextile, 30, 3),
   (.semiSquare, 45, 3),
   (.sesquiSquare, 135, 3),
   (.quintile, 72, 2),
   (.biQuintile, 144, 2)]

/-- Angular separation: `diff = abs(a - b); if diff > 180: diff = 360 - diff`. -/
def sep (a b : ℚ) : ℚ :=
  let diff := |a - b|
  if diff > 180 then 360 - diff else diff

/-- One aspect-table entry matches a separation `d` when
`orb = abs(d - aspect_angle)` satisfies `orb <= max_orb`. -/
def matchesAspect {α : Type} (d : ℚ) (e : α × ℚ × ℚ) : Bool :=
  |d - e.2.1| ≤ e.2.2

/-- The table entries a given separation matches, in table order (the code
checks every entry independently and emits one aspect per matching entry). -/
def matchedAspects (d : ℚ) : List (AspectName × ℚ × ℚ) :=
  aspect_types.filter (matchesAspect d)

/-! ### Oracle data model (kerykeion planet objects, astro_helpers.py) -/

/-- A planet object as consumed from the oracle: its `name` and its absolute
ecliptic longitude `abs_pos`.  (The routers use only these two attributes of
the kerykeion planet objects when detecting aspects.) -/
structure KPlanet where
  name : String
  abs_pos : ℚ
deriving DecidableEq

/-- An `AstrologicalSubject` as consumed by the routers: the ten classical
planet attributes, the two nodes, plus the optional bodies `chiron` and
`lilith`.  `none` models an absent attribute or a planet object failing the
code's `if not planet or not hasattr(planet, 'abs_pos')` guard. -/
structure Subject where
  sun : Option KPlanet
  moon : Option KPlanet
  mercury : Option KPlanet
  venus : Option KPlanet
  mars : Option KPlanet
  jupiter : Option KPlanet
  saturn : Option KPlanet
  uranus : Option KPlanet
  neptune : Option KPlanet
  pluto : Option KPlanet
  mean_node : Option KPlanet
  true_node : Option KPlanet
  chiron : Option KPlanet
  lilith : Option KPlanet

/-- The literal ten-element list `[subject.sun, ..., subject.pluto]` built by
`get_transits_to_natal` (and by `create_combined_chart_svg`), with the absent
entries skipped as the loop guards do. -/
def classicalPlanets (s : Subject) : List KPlanet :=
  [s.sun, s.moon, s.mercury, s.venus, s.mars,
   s.jupiter, s.saturn, s.uranus, s.neptune, s.pluto].filterMap id

/-- Python `round(x, 4)` on the exact rationals (the Python float rounding differs
only at representation-noise ties, which no claim touches). -/
def round4 (x : ℚ) : ℚ := (round (x * 10000) : ℤ) / 10000

/-- A `TransitAspect` response item (models.py). -/
structure TransitAspect where
  transit_planet : String
  natal_planet_or_point : String
  aspect_name : AspectName
  orbit : ℚ
deriving DecidableEq

/-- The manual aspect computation of `get_transits_to_natal` (transit_router.py
lines 103-125): outer loop over the natal planets, inner loop over the transit
planets, innermost scan over every `aspect_types` entry, one `TransitAspect`
emitted per matching entry. -/
def aspectsToNatal (natalPlanets transitPlanets : List KPlanet) : List TransitAspect :=
  natalPlanets.flatMap fun np =>
    transitPlanets.flatMap fun tp =>
      (aspect_types.filter (matchesAspect (sep np.abs_pos tp.abs_pos))).map fun e =>
        { transit_planet := tp.name
          natal_planet_or_point := np.name
          aspect_name := e.1
          orbit := round4 |sep np.abs_pos tp.abs_pos - e.2.1| }

/-- The ten classical planet names, in the order of the routers' lists. -/
def classicalNames : List String :=
  ["Sun", "Moon", "Mercury", "Venus", "Mars",
   "Jupiter", "Saturn", "Uranus", "Neptune", "Pluto"]

/-! ### House systems, requests and subject creation (models.py, astro_helpers.py) -/

/-- The six-valued external house-system vocabulary (`models.HouseSystem`). -/
inductive HouseSystem where
  | placidus
  | koch
  | regiomontanus
  | campanus
  | equal
  | whole_sign
deriving DecidableEq

/-- Dict `HOUSE_SYSTEM_MAP` (models.py lines 15-22), as the dict's
insertion-ordered key/value pairs. -/
def HOUSE_SYSTEM_MAP : List (HouseSystem × String) :=
  [(.placidus, "P"),
   (.koch, "K"),
   (.regiomontanus, "R"),
   (.campanus, "C"),
   (.equal, "E"),
   (.whole_sign, "W")]

/-- A natal-chart or transit request body (models.py `NatalChartRequest` /
`TransitRequest`; the two models carry the same fields). -/
structure ChartRequest where
  name : Option String
  year : Int
  month : Int
  day : Int
  hour : Int
  minute : Int
  latitude : ℚ
  longitude : ℚ
  tz_str : String
  house_system : HouseSystem
deriving DecidableEq

/-- Python's `x or default` on an optional string: `None` and the empty
string both fall back to the default. -/
def pyOr (x : Option String) (default : String) : String :=
  match x with
  | none => default
  | some s => if s = "" then default else s

/-- The argument tuple passed to the oracle's `AstrologicalSubject`
constructor by `create_subject`. -/
structure SubjectParams where
  name : String
  year : Int
  month : Int
  day : Int
  hour : Int
  minute : Int
  lng : ℚ
  lat : ℚ
  tz_str : String
  houses_system_identifier : String
deriving DecidableEq

/-- Function `create_subject` (astro_helpers.py lines 12-35): looks the request's house
system up in `HOUSE_SYSTEM_MAP` with default `"P"` and passes the mapped code,
together with the request fields, to the oracle constructor. -/
def create_subject (data : ChartRequest) (default_name : String) : SubjectParams :=
  { name := pyOr data.name default_name
    year := data.year
    month := data.month
    day := data.day
    hour := data.hour
    minute := data.minute
    lng := data.longitude
    lat := data.latitude
    tz_str := data.tz_str
    houses_system_identifier := ((HOUSE_SYSTEM_MAP.lookup data.house_system).getD "P") }

/-! ### Endpoint error classification (transit_router.py, svg_chart_router.py) -/

/-- An HTTP error raised by a router (`HTTPException(status_code, detail)`). -/
structure HTTPErr where
  status : Nat
  detail : String
deriving DecidableEq

/-- The successful payload of `POST /transits_to_natal` that the claims
inspect: the transit planet position list and the aspect list. -/
structure TransitsToNatalResult where
  transit_planets_positions : List KPlanet
  aspects_to_natal : List TransitAspect

/-- Handler `get_transits_to_natal` (transit_router.py lines 50-138) with the oracle
call made explicit: `.error e` models the oracle raising with message `e`
anywhere inside the `try` block, in which case the whole handler raises
`HTTPException(400, "Erro de cálculo astrológico (Kerykeion): " + e)` and no
partial payload escapes.  On success the aspects are computed over the two
ten-planet lists; `chiron` is appended to the positions list only. -/
def get_transits_to_natal (oracle : Except String (Subject × Subject)) :
    Except HTTPErr TransitsToNatalResult :=
  match oracle with
  | .error e => .error ⟨400, "Erro de cálculo astrológico (Kerykeion): " ++ e⟩
  | .ok (natal_subject, transit_subject) =>
      .ok { transit_planets_positions :=
              ([transit_subject.sun, transit_subject.moon, transit_subject.mercury,
                transit_subject.venus, transit_subject.mars, transit_subject.jupiter,
                transit_subject.saturn, transit_subject.uranus, transit_subject.neptune,
                transit_subject.pluto, transit_subject.mean_node,
                transit_subject.true_node].filterMap id)
              ++ (match transit_subject.chiron with
                  | some c => [c]
                  | none => [])
            aspects_to_natal :=
              aspectsToNatal (classicalPlanets natal_subject)
                (classicalPlanets transit_subject) }

/-- The `chart_type` literal of `SVGChartRequest`. -/
inductive ChartType where
  | natal
  | transit
  | combined
deriving DecidableEq

/-- The string value of a `chart_type` literal (used in the error message). -/
def chartTypeStr : ChartType → String
  | .natal => "natal"
  | .transit => "transit"
  | .combined => "combined"

/-- Model `SVGChartRequest` (models.py lines 304-308). -/
structure SVGChartRequest where
  natal_chart : ChartRequest
  transit_chart : Option ChartRequest
  chart_type : ChartType
  theme : String

/-- The chart job handed to the oracle's SVG engine by `generate_svg_chart`. -/
inductive ChartJob where
  | natalChart (subject : SubjectParams)
  | transitChart (subject : SubjectParams)
  | synastry (first second : SubjectParams)
deriving DecidableEq

/-- The dispatch logic of `generate_svg_chart` (svg_chart_router.py lines
25-113): a transit subject is created only when `transit_chart` is supplied
and the chart type needs it; when a transit or combined chart is requested
without `transit_chart`, the handler raises `ValueError`, which the
`except ValueError` clause converts into `HTTPException(422, ...)` — the
input-validation signal, distinct from the 400 computation-failure signal of
the transit endpoints. -/
def generate_svg_chart (data : SVGChartRequest) : Except HTTPErr ChartJob :=
  let natal_subject := create_subject data.natal_chart "Natal Chart"
  let transit_subject : Option SubjectParams :=
    match data.transit_chart, data.chart_type with
    | some tc, .transit => some (create_subject tc "Transit")
    | some tc, .combined => some (create_subject tc "Transit")
    | _, _ => none
  match data.chart_type, transit_subject with
  | .natal, _ => .ok (.natalChart natal_subject)
  | .transit, some ts => .ok (.transitChart ts)
  | .combined, some ts => .ok (.synastry natal_subject ts)
  | .transit, none =>
      .error ⟨422, "Dados de trânsito ('transit_chart') são necessários para o tipo de gráfico 'transit'."⟩
  | .combined, none =>
      .error ⟨422, "Dados de trânsito ('transit_chart') são necessários para o tipo de gráfico 'combined'."⟩

/-! ### Combined-chart temporary file path (svg_combined_chart_router.py,
svg_combined_chart.generate_combined_chart) -/

/-- Model `SVGCombinedChartRequest` (models.py lines 59-64). -/
structure SVGCombinedChartRequest where
  natal_chart : ChartRequest
  transit_chart : ChartRequest
deriving DecidableEq

/-- The fixed scratch directory `Path("/tmp/astro_svg")` hard-coded in
`generate_svg_combined_chart` (and in `generate_svg_chart`); every invocation
uses this same directory and first deletes every `*.svg` file inside it. -/
def combinedTempDir : String := "/tmp/astro_svg"

/-- The output path computed by `generate_combined_chart`
(svg_combined_chart.py lines 321-343):
`output_dir / f"{natal.name}_com_transitos_{transit.name}.svg"`. -/
def generate_combined_chart_path (natalName transitName : String) : String :=
  combinedTempDir ++ "/" ++ natalName ++ "_com_transitos_" ++ transitName ++ ".svg"

/-- The scratch path a `POST /svg_combined_chart` request ends up writing to
(`generate_svg_combined_chart`, svg_combined_chart_router.py lines 31-62):
subjects are created with `data.<chart>.name or <default>` as name, and the
file name is derived from those subject names alone. -/
def combinedEndpointPath (data : SVGCombinedChartRequest) : String :=
  let natal_subject := create_subject data.natal_chart (pyOr data.natal_chart.name "Natal Chart")
  let transit_subject := create_subject data.transit_chart (pyOr data.transit_chart.name "Transit Chart")
  generate_combined_chart_path natal_subject.name transit_subject.name

/-! ### Combined-chart SVG renderer (svg_combined_chart.py) -/

noncomputable section Renderer

/-- Constant `CHART_SIZE = 800`. -/
def CHART_SIZE : ℝ := 800

/-- Constant `CHART_CENTER = CHART_SIZE / 2`. -/
def CHART_CENTER : ℝ := CHART_SIZE / 2

/-- Constant `ZODIAC_RADIUS = CHART_SIZE * 0.35`. -/
def ZODIAC_RADIUS : ℝ := CHART_SIZE * 0.35

/-- Constant `PLANET_RADIUS_NATAL = ZODIAC_RADIUS * 0.75` (outer radius). -/
def PLANET_RADIUS_NATAL : ℝ := ZODIAC_RADIUS * 0.75

/-- Constant `PLANET_RADIUS_TRANSIT = ZODIAC_RADIUS * 0.6` (inner radius). -/
def PLANET_RADIUS_TRANSIT : ℝ := ZODIAC_RADIUS * 0.6

/-- Function `calculate_point_on_circle` (svg_combined_chart.py lines 48-69):
`angle_rad = math.radians(90 - angle_deg)`, then
`(center_x + radius * cos(angle_rad), center_y - radius * sin(angle_rad))`. -/
def calculate_point_on_circle (center_x center_y radius angle_deg : ℝ) : ℝ × ℝ :=
  let angle_rad := (90 - angle_deg) * (Real.pi / 180)
  (center_x + radius * Real.cos angle_rad, center_y - radius * Real.sin angle_rad)

/-- An element of the produced SVG document, carrying the attributes the
source sets (the constant `text_anchor`/`dominant_baseline` attributes are
omitted; they are fixed per call site and distinguish nothing). -/
inductive SvgElement where
  | rect (insert : ℝ × ℝ) (size : ℝ × ℝ) (fill : String)
  | circle (center : ℝ × ℝ) (r : ℝ) (fill : String) (stroke : String) (strokeWidth : ℝ)
  | line (start : ℝ × ℝ) (stop : ℝ × ℝ) (stroke : String) (strokeWidth : ℝ)
      (dasharray : Option String)
  | text (content : String) (insert : ℝ × ℝ) (fontSize : ℝ) (fill : Option String)
      (fontWeight : Option String)

/-- Table `PLANET_SYMBOLS` (svg_combined_chart.py lines 36-40). -/
def PLANET_SYMBOLS : List (String × String) :=
  [("Sun", "☉"), ("Moon", "☽"), ("Mercury", "☿"), ("Venus", "♀"), ("Mars", "♂"),
   ("Jupiter", "♃"), ("Saturn", "♄"), ("Uranus", "♅"), ("Neptune", "♆"), ("Pluto", "♇"),
   ("Chiron", "⚷"), ("Lilith", "⚸"), ("North Node", "☊"), ("South Node", "☋")]

/-- Table `SIGN_SYMBOLS` (svg_combined_chart.py lines 43-46). -/
def SIGN_SYMBOLS : List (String × String) :=
  [("Ari", "♈"), ("Tau", "♉"), ("Gem", "♊"), ("Can", "♋"), ("Leo", "♌"), ("Vir", "♍"),
   ("Lib", "♎"), ("Sco", "♏"), ("Sag", "♐"), ("Cap", "♑"), ("Aqu", "♒"), ("Pis", "♓")]

/-- The svg module's own aspect table (svg_combined_chart.py lines 245-257),
keyed by the Portuguese aspect names; same angles and orbs as
`aspect_types`. -/
def svgAspectTypes : List (String × ℚ × ℚ) :=
  [("Conjunção", 0, 8),
   ("Oposição", 180, 8),
   ("Trígono", 120, 8),
   ("Quadratura", 90, 7),
   ("Sextil", 60, 6),
   ("Quincúncio", 150, 5),
   ("Semi-Sextil", 30, 3),
   ("Semi-Quadratura", 45, 3),
   ("Sesqui-Quadratura", 135, 3),
   ("Quintil", 72, 2),
   ("Bi-Quintil", 144, 2)]

/-- Table `ASPECT_COLORS` (svg_combined_chart.py lines 21-33). -/
def ASPECT_COLORS : List (String × String) :=
  [("Conjunção", "#FF0000"),
   ("Oposição", "#0000FF"),
   ("Trígono", "#00FF00"),
   ("Quadratura", "#FF00FF"),
   ("Sextil", "#FFFF00"),
   ("Quincúncio", "#00FFFF"),
   ("Semi-Sextil", "#FFA500"),
   ("Semi-Quadratura", "#800080"),
   ("Sesqui-Quadratura", "#008080"),
   ("Quintil", "#800000"),
   ("Bi-Quintil", "#808000")]

/-- Python `planet.name.split()[0]`: the first whitespace-separated word of the
planet's name. -/
def firstWord (s : String) : String := (s.splitOn " ").headD ""

/-- Function `draw_zodiac_wheel` (svg_combined_chart.py lines 83-112): the rim circle,
then for each of the 12 sectors a dashed radial line at `i * 30` degrees and
the sign glyph at the sector's mid-angle on radius `1.1 * radius`. -/
def draw_zodiac_wheel (center_x center_y radius : ℝ) : List SvgElement :=
  .circle (center_x, center_y) radius "none" "black" 2 ::
  (List.range 12).flatMap fun i =>
    let angle_deg : ℝ := (i : ℝ) * 30
    [.line (calculate_point_on_circle center_x center_y radius angle_deg)
        (center_x, center_y) "black" 1 (some "5,5"),
     .text ((SIGN_SYMBOLS.getD i ("", "")).2)
        (calculate_point_on_circle center_x center_y (radius * 1.1) (angle_deg + 15))
        24 none none]

/-- Function `draw_planet` (svg_combined_chart.py lines 114-152): glyph background
circle, planet symbol and label at the planet's mapped canvas position;
returns the drawn elements together with the position and first-word name the
source stores into `planet_positions`. -/
def draw_planet (center_x center_y radius : ℝ) (planet : KPlanet) (is_transit : Bool) :
    List SvgElement × (ℝ × ℝ) × String :=
  let angle : ℝ := (planet.abs_pos : ℝ)
  let position := calculate_point_on_circle center_x center_y radius angle
  let color := if is_transit then "blue" else "black"
  let bg_color := if is_transit then "lightblue" else "white"
  let planet_name := firstWord planet.name
  let symbol := (PLANET_SYMBOLS.lookup planet_name).getD "?"
  let label_position := calculate_point_on_circle position.1 position.2 20 angle
  ([.circle position 12 bg_color color 1,
    .text symbol position 16 (some color) none,
    .text planet_name label_position 10 (some color) none],
   position, planet_name)

/-- Function `draw_aspect_line` (svg_combined_chart.py lines 154-183): color from
`ASPECT_COLORS` with gray default, thick solid stroke for the two major
aspects, dashed for harmonic, dotted for tense, thin solid otherwise. -/
def draw_aspect_line (start_pos end_pos : ℝ × ℝ) (aspect_name : String) : SvgElement :=
  let color := (ASPECT_COLORS.lookup aspect_name).getD "#999999"
  let stroke_width : ℝ :=
    if aspect_name = "Conjunção" ∨ aspect_name = "Oposição" then 2 else 1
  let stroke_dasharray : Option String :=
    if aspect_name = "Conjunção" ∨ aspect_name = "Oposição" then none
    else if aspect_name = "Trígono" ∨ aspect_name = "Sextil" then some "5,3"
    else if aspect_name = "Quadratura" ∨ aspect_name = "Quincúncio" then some "2,2"
    else none
  .line start_pos end_pos color stroke_width stroke_dasharray

/-- Lookup in the `planet_positions` dict; on duplicate keys Python keeps the
last write, hence the lookup over the reversed insertion list. -/
def dictGet (entries : List (String × (ℝ × ℝ))) (key : String) : Option (ℝ × ℝ) :=
  entries.reverse.lookup key

/-- The `planet_positions` dict as its insertion-ordered entries: natal
planets first (keys `natal_<name>` at the outer radius), then the transit
planets (keys `transit_<name>` at the inner radius). -/
def planetPositionsDict (natal transit : List KPlanet) : List (String × (ℝ × ℝ)) :=
  (natal.map fun p =>
    ("natal_" ++ (draw_planet CHART_CENTER CHART_CENTER PLANET_RADIUS_NATAL p false).2.2,
     (draw_planet CHART_CENTER CHART_CENTER PLANET_RADIUS_NATAL p false).2.1))
  ++ (transit.map fun p =>
    ("transit_" ++ (draw_planet CHART_CENTER CHART_CENTER PLANET_RADIUS_TRANSIT p true).2.2,
     (draw_planet CHART_CENTER CHART_CENTER PLANET_RADIUS_TRANSIT p true).2.1))

/-- The background rectangle and the title text (svg_combined_chart.py lines
202-208). -/
def backgroundAndTitle (natalName transitName : String) : List SvgElement :=
  [.rect (0, 0) (CHART_SIZE, CHART_SIZE) "white",
   .text (natalName ++ " - Mapa Natal com Trânsitos de " ++ transitName)
      (CHART_SIZE / 2, 30) 20 none (some "bold")]

/-- The natal-planet glyphs drawn on the outer radius (lines 224-228). -/
def natalGlyphsPart (natal : List KPlanet) : List SvgElement :=
  natal.flatMap fun p =>
    (draw_planet CHART_CENTER CHART_CENTER PLANET_RADIUS_NATAL p false).1

/-- The transit-planet glyphs drawn on the inner radius (lines 238-242). -/
def transitGlyphsPart (transit : List KPlanet) : List SvgElement :=
  transit.flatMap fun p =>
    (draw_planet CHART_CENTER CHART_CENTER PLANET_RADIUS_TRANSIT p true).1

/-- The aspect-detection-and-line-drawing loop (lines 259-290): for every
transit/natal pair and every matching entry of the svg module's aspect table,
one aspect line is drawn when both positions are found in the dict. -/
def aspectLinesPart (positions : List (String × (ℝ × ℝ))) (natal transit : List KPlanet) :
    List SvgElement :=
  transit.flatMap fun transit_planet =>
    natal.flatMap fun natal_planet =>
      (svgAspectTypes.filter
          (matchesAspect (sep natal_planet.abs_pos transit_planet.abs_pos))).flatMap fun e =>
        match dictGet positions ("transit_" ++ firstWord transit_planet.name),
              dictGet positions ("natal_" ++ firstWord natal_planet.name) with
        | some start_pos, some end_pos => [draw_aspect_line start_pos end_pos e.1]
        | _, _ => []

/-- The legend block (lines 292-314): captions, the two sample glyph circles
and a color sample for the first six `ASPECT_COLORS` entries. -/
def legendPart : List SvgElement :=
  let legend_y : ℝ := CHART_SIZE - 120
  [.text "Legenda:" (50, legend_y) 16 none (some "bold"),
   .text "Planetas Natais:" (50, legend_y + 25) 14 none none,
   .circle (70, legend_y + 45) 8 "white" "black" 1,
   .text "Planetas em Trânsito:" (50, legend_y + 65) 14 none none,
   .circle (70, legend_y + 85) 8 "lightblue" "blue" 1,
   .text "Aspectos:" (250, legend_y + 25) 14 none none]
  ++ (ASPECT_COLORS.take 6).enum.flatMap fun ie =>
      let y := legend_y + 45 + 20 * (ie.1 : ℝ)
      [.line (250, y) (250 + 40, y) ie.2.2 2 none,
       .text ie.2.1 (250 + 50, y + 5) 12 none none]

/-- Function `create_combined_chart_svg` (svg_combined_chart.py lines 185-319) as the
ordered list of elements added to the drawing: background and title, zodiac
wheel, natal glyphs (outer radius), transit glyphs (inner radius), aspect
lines, legend.  The two planet lists stand for the subjects' ten classical
planet attributes after the loop guards (`classicalPlanets`). -/
def create_combined_chart_svg (natal transit : List KPlanet)
    (natalName transitName : String) : List SvgElement :=
  backgroundAndTitle natalName transitName
  ++ draw_zodiac_wheel CHART_CENTER CHART_CENTER ZODIAC_RADIUS
  ++ natalGlyphsPart natal
  ++ transitGlyphsPart transit
  ++ aspectLinesPart (planetPositionsDict natal transit) natal transit
  ++ legendPart

end Renderer

/-! ### Helper lemmas -/

lemma match_iff {α : Type} (d : ℚ) (n : α) (c r : ℚ) :
    matchesAspect d (n, c, r) = true ↔ (c - r ≤ d ∧ d ≤ c + r) := by
  simp only [matchesAspect, decide_eq_true_eq, abs_sub_le_iff]
  constructor <;> (rintro ⟨h1, h2⟩; constructor <;> linarith)

lemma match_false_iff {α : Type} (d : ℚ) (n : α) (c r : ℚ) :
    matchesAspect d (n, c, r) = false ↔ (d < c - r ∨ c + r < d) := by
  rw [Bool.eq_false_iff, Ne, match_iff, not_and_or, not_le, not_le]

lemma length_filter_le_one {α : Type} (p : α → Bool) :
    ∀ l : List α, l.Pairwise (fun x y => ¬(p x = true ∧ p y = true)) →
      (l.filter p).length ≤ 1 := by
  intro l
  induction l with
  | nil => intro _; simp
  | cons a t ih =>
    intro h
    rcases List.pairwise_cons.mp h with ⟨ha, ht⟩
    by_cases hp : p a = true
    · have hnil : t.filter p = [] := by
        rw [List.filter_eq_nil_iff]
        intro b hb hpb
        exact ha b hb ⟨hp, hpb⟩
      simp [List.filter_cons, hp, hnil]
    · rw [Bool.not_eq_true] at hp
      simp only [List.filter_cons, hp]
      exact ih ht

lemma aspect_types_nodup : aspect_types.Nodup := by decide

/-- Outside the band `[145, 146]`, no two distinct entries of the aspect
table both match a separation: all other orb windows are pairwise disjoint,
and the Quincunx window `[145, 155]` meets the Bi-Quintile window
`[142, 146]` exactly in `[145, 146]`. -/
lemma no_double_match (d : ℚ) (hd : d < 145 ∨ 146 < d) :
    ∀ e1 ∈ aspect_types, ∀ e2 ∈ aspect_types, e1 ≠ e2 →
      ¬(matchesAspect d e1 = true ∧ matchesAspect d e2 = true) := by
  intro e1 he1 e2 he2 hne
  simp only [aspect_types, List.mem_cons, List.not_mem_nil, or_false] at he1 he2
  rcases he1 with rfl | rfl | rfl | rfl | rfl | rfl | rfl | rfl | rfl | rfl | rfl <;>
    rcases he2 with rfl | rfl | rfl | rfl | rfl | rfl | rfl | rfl | rfl | rfl | rfl <;>
    first
    | exact absurd rfl hne
    | (rintro ⟨h1, h2⟩
       rw [match_iff] at h1 h2
       rcases hd with hd | hd <;> linarith [h1.1, h1.2, h2.1, h2.2])

lemma matched_le_one (d : ℚ) (hd : d < 145 ∨ 146 < d) :
    (matchedAspects d).length ≤ 1 := by
  have hp : aspect_types.Pairwise
      (fun x y => ¬(matchesAspect d x = true ∧ matchesAspect d y = true)) :=
    List.Pairwise.imp_of_mem
      (fun {x y} hx hy hxy => no_double_match d hd x hx y hy hxy)
      aspect_types_nodup
  simpa [matchedAspects] using length_filter_le_one (matchesAspect d) aspect_types hp

lemma point_at_zero (cx cy r : ℝ) :
    calculate_point_on_circle cx cy r 0 = (cx, cy - r) := by
  simp only [calculate_point_on_circle]
  rw [show ((90 : ℝ) - 0) * (Real.pi / 180) = Real.pi / 2 by ring,
    Real.cos_pi_div_two, Real.sin_pi_div_two]
  norm_num

lemma point_at_ninety (cx cy r : ℝ) :
    calculate_point_on_circle cx cy r 90 = (cx + r, cy) := by
  simp only [calculate_point_on_circle]
  rw [show ((90 : ℝ) - 90) * (Real.pi / 180) = 0 by ring, Real.cos_zero, Real.sin_zero]
  norm_num

/-! ### Claim theorems -/

/-- C1 (counterexample): the default orbs do NOT avoid the double-match edge
case.  For the pair of longitudes `(0, 145)` — both in `[0, 360)` — the
separation is `145` and two table entries match: Quincunx
(`|145 - 150| = 5 ≤ 5`) and Bi-Quintile (`|145 - 144| = 1 ≤ 2`), so the
detector emits two aspects for this single planet pair. -/
theorem matchedAspects_two_at_sep_145 :
    (0 : ℚ) ≤ 0 ∧ (0 : ℚ) < 360 ∧ (0 : ℚ) ≤ 145 ∧ (145 : ℚ) < 360 ∧
      ¬((matchedAspects (sep 0 145)).length ≤ 1) := by
  refine ⟨le_refl 0, by norm_num, by norm_num, by norm_num, ?_⟩
  have h2 : (matchedAspects (sep 0 145)).length = 2 := by
    norm_num [sep, matchedAspects, aspect_types, matchesAspect, List.filter]
  omega

/-- C1 (amended): for longitudes `a, b ∈ [0, 360)`, at most one entry of the
fixed default aspect table matches the separation `sep a b`, UNLESS the
separation lies in the band `[145, 146]`, where exactly two entries match:
Quincunx (150/5) and Bi-Quintile (144/2), whose orb windows overlap there. -/
theorem matchedAspects_le_one_or_quincunx_biquintile (a b : ℚ)
    (ha0 : 0 ≤ a) (ha : a < 360) (hb0 : 0 ≤ b) (hb : b < 360) :
    (matchedAspects (sep a b)).length ≤ 1 ∨
      (145 ≤ sep a b ∧ sep a b ≤ 146 ∧
        matchedAspects (sep a b) =
          [(.quincunx, 150, 5), (.biQuintile, 144, 2)]) := by
  set d := sep a b with hdd
  rcases lt_or_le d 145 with h | h
  · exact Or.inl (matched_le_one d (Or.inl h))
  · rcases le_or_lt d 146 with h2 | h2
    · right
      refine ⟨h, h2, ?_⟩
      have hConj : matchesAspect d (AspectName.conjunction, (0 : ℚ), (8 : ℚ)) = false :=
        (match_false_iff d _ 0 8).mpr (Or.inr (by linarith))
      have hOpp : matchesAspect d (AspectName.opposition, (180 : ℚ), (8 : ℚ)) = false :=
        (match_false_iff d _ 180 8).mpr (Or.inl (by linarith))
      have hTrine : matchesAspect d (AspectName.trine, (120 : ℚ), (8 : ℚ)) = false :=
        (match_false_iff d _ 120 8).mpr (Or.inr (by linarith))
      have hSquare : matchesAspect d (AspectName.square, (90 : ℚ), (7 : ℚ)) = false :=
        (match_false_iff d _ 90 7).mpr (Or.inr (by linarith))
      have hSextile : matchesAspect d (AspectName.sextile, (60 : ℚ), (6 : ℚ)) = false :=
        (match_false_iff d _ 60 6).mpr (Or.inr (by linarith))
      have hQuincunx : matchesAspect d (AspectName.quincunx, (150 : ℚ), (5 : ℚ)) = true :=
        (match_iff d _ 150 5).mpr ⟨by linarith, by linarith⟩
      have hSemiSextile : matchesAspect d (AspectName.semiSextile, (30 : ℚ), (3 : ℚ)) = false :=
        (match_false_iff d _ 30 3).mpr (Or.inr (by linarith))
      have hSemiSquare : matchesAspect d (AspectName.semiSquare, (45 : ℚ), (3 : ℚ)) = false :=
        (match_false_iff d _ 45 3).mpr (Or.inr (by linarith))
      have hSesquiSquare : matchesAspect d (AspectName.sesquiSquare, (135 : ℚ), (3 : ℚ)) = false :=
        (match_false_iff d _ 135 3).mpr (Or.inr (by linarith))
      have hQuintile : matchesAspect d (AspectName.quintile, (72 : ℚ), (2 : ℚ)) = false :=
        (match_false_iff d _ 72 2).mpr (Or.inr (by linarith))
      have hBiQuintile : matchesAspect d (AspectName.biQuintile, (144 : ℚ), (2 : ℚ)) = true :=
        (match_iff d _ 144 2).mpr ⟨by linarith, by linarith⟩
      simp [matchedAspects, aspect_types, List.filter_cons, hConj, hOpp, hTrine,
        hSquare, hSextile, hQuincunx, hSemiSextile, hSemiSquare, hSesquiSquare,
        hQuintile, hBiQuintile]
    · exact Or.inl (matched_le_one d (Or.inr h2))

/-- C1 (witness): the amended claim instantiated at the double-match pair
`(0, 145)`. -/
theorem matchedAspects_le_one_or_quincunx_biquintile_witness :
    (matchedAspects (sep 0 145)).length ≤ 1 ∨
      (145 ≤ sep 0 145 ∧ sep 0 145 ≤ 146 ∧
        matchedAspects (sep 0 145) =
          [(.quincunx, 150, 5), (.biQuintile, 144, 2)]) :=
  matchedAspects_le_one_or_quincunx_biquintile 0 145
    (by norm_num) (by norm_num) (by norm_num) (by norm_num)

/-- C2: for longitudes `a, b ∈ [0, 360)`, the detector's angular separation
is symmetric and lies in `[0, 180]`. -/
theorem sep_symm_nonneg_le_180 (a b : ℚ)
    (ha0 : 0 ≤ a) (ha : a < 360) (hb0 : 0 ≤ b) (hb : b < 360) :
    sep a b = sep b a ∧ 0 ≤ sep a b ∧ sep a b ≤ 180 := by
  have habs : |a - b| < 360 := abs_sub_lt_iff.mpr ⟨by linarith, by linarith⟩
  refine ⟨?_, ?_, ?_⟩
  · have h := abs_sub_comm a b
    simp only [sep, h]
  · simp only [sep]
    split_ifs with h
    · linarith
    · exact abs_nonneg _
  · simp only [sep]
    split_ifs with h
    · linarith
    · linarith [not_lt.mp h]

/-- C2 (witness): the separation property at the pair `(10, 250)`. -/
theorem sep_symm_nonneg_le_180_witness :
    sep 10 250 = sep 250 10 ∧ 0 ≤ sep 10 250 ∧ sep 10 250 ≤ 180 :=
  sep_symm_nonneg_le_180 10 250 (by norm_num) (by norm_num) (by norm_num) (by norm_num)

/-- C3: a planet pair at exact separation 180° matches exactly one table
entry, the Opposition (180/8); the detector emits that single aspect. -/
theorem matchedAspects_opposition_of_sep_180 (a b : ℚ)
    (ha0 : 0 ≤ a) (ha : a < 360) (hb0 : 0 ≤ b) (hb : b < 360)
    (h : sep a b = 180) :
    matchedAspects (sep a b) = [(.opposition, 180, 8)] := by
  rw [h]
  norm_num [matchedAspects, aspect_types, matchesAspect, List.filter]

/-- C3 (witness): at longitudes `0` and `180` the separation is exactly 180
and the matched list is the singleton Opposition. -/
theorem matchedAspects_opposition_of_sep_180_witness :
    matchedAspects (sep 0 180) = [(.opposition, 180, 8)] :=
  matchedAspects_opposition_of_sep_180 0 180
    (by norm_num) (by norm_num) (by norm_num) (by norm_num) (by norm_num [sep])

/-- C4 (counterexample): a planet at longitude 0 is NOT rendered at the
3-o'clock position of the wheel.  The 3-o'clock point of the zodiac circle is
`(CHART_CENTER + ZODIAC_RADIUS, CHART_CENTER)`, but the renderer maps
longitude 0 to canvas angle 90°, i.e. the top of the canvas. -/
theorem calculate_point_on_circle_zero_not_three_oclock :
    calculate_point_on_circle CHART_CENTER CHART_CENTER ZODIAC_RADIUS 0 ≠
      (CHART_CENTER + ZODIAC_RADIUS, CHART_CENTER) := by
  rw [point_at_zero]
  intro h
  have h1 : CHART_CENTER = CHART_CENTER + ZODIAC_RADIUS := congrArg Prod.fst h
  have h2 : ZODIAC_RADIUS = 0 := by linarith
  norm_num [ZODIAC_RADIUS, CHART_SIZE] at h2

/-- C4 (amended): the renderer places the point for longitude `L` at canvas
angle `90° − L` in the standard mathematical convention and converts into the
y-down graphics system (`y = center_y − r·sin`), and `draw_planet` uses
exactly this mapping at the planet's `abs_pos`; consequently a planet at
longitude 0 appears at the 12-o'clock position `(cx, cy − r)` and longitude
90 at the 3-o'clock position `(cx + r, cy)` — increasing longitude proceeds
clockwise on the rendered canvas. -/
theorem calculate_point_on_circle_orientation (cx cy r : ℝ) :
    (∀ L : ℝ, calculate_point_on_circle cx cy r L =
        (cx + r * Real.cos ((90 - L) * (Real.pi / 180)),
         cy - r * Real.sin ((90 - L) * (Real.pi / 180)))) ∧
    (∀ (p : KPlanet) (is_transit : Bool),
        (draw_planet cx cy r p is_transit).2.1 =
          calculate_point_on_circle cx cy r (p.abs_pos : ℝ)) ∧
    calculate_point_on_circle cx cy r 0 = (cx, cy - r) ∧
    calculate_point_on_circle cx cy r 90 = (cx + r, cy) :=
  ⟨fun _ => rfl, fun _ _ => rfl, point_at_zero cx cy r, point_at_ninety cx cy r⟩

/-- C5: rendering with the comparison (transit) chart absent — its planet
list empty — produces a document with no inner-radius glyphs and no aspect
lines: the transit part and the aspect part are empty, and the whole document
is exactly background, title, wheel, outer-radius natal glyphs and legend. -/
theorem create_combined_chart_svg_base_only (natal : List KPlanet)
    (natalName transitName : String) :
    transitGlyphsPart [] = [] ∧
    aspectLinesPart (planetPositionsDict natal []) natal [] = [] ∧
    create_combined_chart_svg natal [] natalName transitName =
      backgroundAndTitle natalName transitName
        ++ draw_zodiac_wheel CHART_CENTER CHART_CENTER ZODIAC_RADIUS
        ++ natalGlyphsPart natal
        ++ legendPart := by
  refine ⟨rfl, rfl, ?_⟩
  simp [create_combined_chart_svg, transitGlyphsPart, aspectLinesPart]

/-- C6: the renderer is deterministic — it is a pure function of the two
planet sets and the two chart names, with no other inputs (no randomness, no
time): equal inputs give identical documents. -/
theorem create_combined_chart_svg_deterministic
    (natal₁ transit₁ natal₂ transit₂ : List KPlanet) (n₁ t₁ n₂ t₂ : String)
    (hn : natal₁ = natal₂) (ht : transit₁ = transit₂)
    (hnn : n₁ = n₂) (htt : t₁ = t₂) :
    create_combined_chart_svg natal₁ transit₁ n₁ t₁ =
      create_combined_chart_svg natal₂ transit₂ n₂ t₂ := by
  rw [hn, ht, hnn, htt]

/-- C6 (witness): two invocations on the same concrete inputs. -/
theorem create_combined_chart_svg_deterministic_witness :
    create_combined_chart_svg [⟨"Sun", 10⟩] [⟨"Moon", 130⟩] "A" "B" =
      create_combined_chart_svg [⟨"Sun", 10⟩] [⟨"Moon", 130⟩] "A" "B" :=
  create_combined_chart_svg_deterministic _ _ _ _ _ _ _ _ rfl rfl rfl rfl

/-- The house-system mapping exactly as the spec words it:
placidus→P, koch→K, regiomontanus→R, campanus→C, equal→E, whole_sign→W
(refinement reference for the dict lookup the code performs). -/
def spec_house_code : HouseSystem → String
  | .placidus => "P"
  | .koch => "K"
  | .regiomontanus => "R"
  | .campanus => "C"
  | .equal => "E"
  | .whole_sign => "W"

/-- C7: for every request, `create_subject` passes to the oracle exactly the
one-letter code the fixed six-entry mapping assigns to the request's house
system. -/
theorem create_subject_house_system_code (data : ChartRequest) (default_name : String) :
    (create_subject data default_name).houses_system_identifier =
      spec_house_code data.house_system := by
  rcases data with ⟨n, y, mo, d, h, mi, la, lo, tz, hs⟩
  cases hs <;> rfl

/-- C8: error classification.  When the oracle raises with message `e`, the
transit endpoint returns no partial result: it fails as a whole with the 400
computation-failure signal whose detail carries the oracle's own text.  When
a transit or combined SVG chart is requested without `transit_chart`, the SVG
endpoint instead fails with the 422 input-validation signal; the two status
codes are distinct. -/
theorem error_classification (e : String) (data : SVGChartRequest)
    (hct : data.chart_type = .transit ∨ data.chart_type = .combined)
    (htc : data.transit_chart = none) :
    get_transits_to_natal (.error e) =
      .error ⟨400, "Erro de cálculo astrológico (Kerykeion): " ++ e⟩ ∧
    generate_svg_chart data =
      .error ⟨422, "Dados de trânsito ('transit_chart') são necessários para o tipo de gráfico '"
        ++ chartTypeStr data.chart_type ++ "'."⟩ ∧
    (422 : Nat) ≠ 400 := by
  refine ⟨rfl, ?_, by norm_num⟩
  rcases data with ⟨nc, tc, ct, th⟩
  have htc' : tc = none := htc
  subst htc'
  rcases hct with h | h <;> (have hct' : ct = _ := h; subst hct') <;> rfl

/-- A concrete request used to witness the error classification. -/
def sampleChartRequest : ChartRequest :=
  { name := some "Exemplo Natal"
    year := 1990
    month := 1
    day := 1
    hour := 12
    minute := 0
    latitude := 0
    longitude := 0
    tz_str := "UTC"
    house_system := .placidus }

/-- A combined-chart SVG request with the transit chart missing. -/
def sampleSvgRequestNoTransit : SVGChartRequest :=
  { natal_chart := sampleChartRequest
    transit_chart := none
    chart_type := .combined
    theme := "Kerykeion" }

/-- C8 (witness): the classification at a concrete oracle message and a
concrete combined-chart request without transit data. -/
theorem error_classification_witness :
    get_transits_to_natal (.error "boom") =
      .error ⟨400, "Erro de cálculo astrológico (Kerykeion): " ++ "boom"⟩ ∧
    generate_svg_chart sampleSvgRequestNoTransit =
      .error ⟨422, "Dados de trânsito ('transit_chart') são necessários para o tipo de gráfico '"
        ++ chartTypeStr sampleSvgRequestNoTransit.chart_type ++ "'."⟩ ∧
    (422 : Nat) ≠ 400 :=
  error_classification "boom" sampleSvgRequestNoTransit (Or.inr rfl) rfl

/-- First of two distinct combined-chart requests sharing a scratch path:
both charts unnamed, natal year 1990. -/
def collidingRequest₁ : SVGCombinedChartRequest :=
  { natal_chart := { sampleChartRequest with name := none }
    transit_chart := { sampleChartRequest with name := none, year := 2024 } }

/-- Second request: same as the first except the natal year is 1991. -/
def collidingRequest₂ : SVGCombinedChartRequest :=
  { natal_chart := { sampleChartRequest with name := none, year := 1991 }
    transit_chart := { sampleChartRequest with name := none, year := 2024 } }

/-- C9: the scratch storage is NOT local to one invocation.  Two different
requests (different birth data, both unnamed) are written to the SAME path in
the SAME fixed shared directory `/tmp/astro_svg` — the file name depends only
on the chart names, so concurrent invocations can observe and disturb each
other's in-progress artifact (each call even deletes every `*.svg` already in
the directory). -/
theorem combined_chart_shared_scratch_path :
    collidingRequest₁ ≠ collidingRequest₂ ∧
    combinedEndpointPath collidingRequest₁ = combinedEndpointPath collidingRequest₂ ∧
    combinedEndpointPath collidingRequest₁ =
      combinedTempDir ++ "/" ++ "Natal Chart_com_transitos_Transit Chart.svg" := by
  refine ⟨?_, rfl, rfl⟩
  intro h
  have hy : (collidingRequest₁.natal_chart.year : Int) =
      collidingRequest₂.natal_chart.year := by rw [h]
  norm_num [collidingRequest₁, collidingRequest₂, sampleChartRequest] at hy

/-- C10: every aspect emitted by the transits-to-natal computation references
one planet from the natal ten-classical-planet list and one from the transit
ten-classical-planet list; when those lists carry the ten classical names,
every emitted aspect names classical planets only — `chiron` and `lilith`,
which the endpoint appends to the positions list but never to the pair
lists, cannot appear in any aspect. -/
theorem aspectsToNatal_only_classical (ns ts : Subject)
    (hn : ∀ p ∈ classicalPlanets ns, p.name ∈ classicalNames)
    (ht : ∀ p ∈ classicalPlanets ts, p.name ∈ classicalNames) :
    ∀ a ∈ aspectsToNatal (classicalPlanets ns) (classicalPlanets ts),
      a.natal_planet_or_point ∈ classicalNames ∧
      a.transit_planet ∈ classicalNames := by
  intro a hma
  simp only [aspectsToNatal, List.mem_flatMap, List.mem_map, List.mem_filter] at hma
  obtain ⟨np, hnp, tp, htp, e, _, rfl⟩ := hma
  exact ⟨hn np hnp, ht tp htp⟩

/-- A natal subject carrying only the Sun, at longitude 0. -/
def sunOnlyNatal : Subject :=
  { sun := some ⟨"Sun", 0⟩
    moon := none, mercury := none, venus := none, mars := none
    jupiter := none, saturn := none, uranus := none, neptune := none
    pluto := none, mean_node := none, true_node := none
    chiron := some ⟨"Chiron", 40⟩, lilith := none }

/-- A transit subject carrying only the Sun, at longitude 90 (an exact
square to the natal Sun), plus a Chiron that must stay out of the aspects. -/
def sunOnlyTransit : Subject :=
  { sun := some ⟨"Sun", 90⟩
    moon := none, mercury := none, venus := none, mars := none
    jupiter := none, saturn := none, uranus := none, neptune := none
    pluto := none, mean_node := none, true_node := none
    chiron := some ⟨"Chiron", 41⟩, lilith := none }

lemma sep_0_90 : sep (0 : ℚ) 90 = 90 := by norm_num [sep]

/-- The transit-to-natal aspects of the two sun-only subjects: one exact
Sun–Sun square (the chirons contribute nothing). -/
lemma sunOnly_aspects :
    aspectsToNatal (classicalPlanets sunOnlyNatal) (classicalPlanets sunOnlyTransit) =
      [⟨"Sun", "Sun", .square, 0⟩] := by
  have hConj : matchesAspect (sep (0 : ℚ) 90) (AspectName.conjunction, (0 : ℚ), (8 : ℚ)) = false := by
    rw [sep_0_90, match_false_iff]; norm_num
  have hOpp : matchesAspect (sep (0 : ℚ) 90) (AspectName.opposition, (180 : ℚ), (8 : ℚ)) = false := by
    rw [sep_0_90, match_false_iff]; norm_num
  have hTrine : matchesAspect (sep (0 : ℚ) 90) (AspectName.trine, (120 : ℚ), (8 : ℚ)) = false := by
    rw [sep_0_90, match_false_iff]; norm_num
  have hSquare : matchesAspect (sep (0 : ℚ) 90) (AspectName.square, (90 : ℚ), (7 : ℚ)) = true := by
    rw [sep_0_90, match_iff]; norm_num
  have hSextile : matchesAspect (sep (0 : ℚ) 90) (AspectName.sextile, (60 : ℚ), (6 : ℚ)) = false := by
    rw [sep_0_90, match_false_iff]; norm_num
  have hQuincunx : matchesAspect (sep (0 : ℚ) 90) (AspectName.quincunx, (150 : ℚ), (5 : ℚ)) = false := by
    rw [sep_0_90, match_false_iff]; norm_num
  have hSemiSextile : matchesAspect (sep (0 : ℚ) 90) (AspectName.semiSextile, (30 : ℚ), (3 : ℚ)) = false := by
    rw [sep_0_90, match_false_iff]; norm_num
  have hSemiSquare : matchesAspect (sep (0 : ℚ) 90) (AspectName.semiSquare, (45 : ℚ), (3 : ℚ)) = false := by
    rw [sep_0_90, match_false_iff]; norm_num
  have hSesquiSquare : matchesAspect (sep (0 : ℚ) 90) (AspectName.sesquiSquare, (135 : ℚ), (3 : ℚ)) = false := by
    rw [sep_0_90, match_false_iff]; norm_num
  have hQuintile : matchesAspect (sep (0 : ℚ) 90) (AspectName.quintile, (72 : ℚ), (2 : ℚ)) = false := by
    rw [sep_0_90, match_false_iff]; norm_num
  have hBiQuintile : matchesAspect (sep (0 : ℚ) 90) (AspectName.biQuintile, (144 : ℚ), (2 : ℚ)) = false := by
    rw [sep_0_90, match_false_iff]; norm_num
  have horb : round4 |sep (0 : ℚ) 90 - 90| = 0 := by
    rw [sep_0_90]; norm_num [round4]
  simp [aspectsToNatal, classicalPlanets, sunOnlyNatal, sunOnlyTransit, aspect_types,
    List.filter_cons, hConj, hOpp, hTrine, hSquare, hSextile, hQuincunx, hSemiSextile,
    hSemiSquare, hSesquiSquare, hQuintile, hBiQuintile, horb]

/-- C10 (witness): for the concrete subjects above, the single emitted aspect
(the exact Sun–Sun square) references classical planet names on both sides. -/
theorem aspectsToNatal_only_classical_witness :
    (⟨"Sun", "Sun", .square, 0⟩ : TransitAspect).natal_planet_or_point ∈ classicalNames ∧
    (⟨"Sun", "Sun", .square, 0⟩ : TransitAspect).transit_planet ∈ classicalNames :=
  aspectsToNatal_only_classical sunOnlyNatal sunOnlyTransit
    (by intro p hp; simp [classicalPlanets, sunOnlyNatal] at hp; simp [hp, classicalNames])
    (by intro p hp; simp [classicalPlanets, sunOnlyTransit] at hp; simp [hp, classicalNames])
    ⟨"Sun", "Sun", .square, 0⟩
    (by rw [sunOnly_aspects]; exact List.mem_singleton.mpr rfl)

end ToAMAO
